import Mathlib

/-!
Shallow embedding of the early-shift repository's detection and polling
core (src/mechanic_detector.py and src/roproxy_client.py), together with
theorems settling the frozen claims about it.

Strings are modelled as `List Char`; Python/SQL integers as `Int`;
floating-point scores and rates as exact rationals `ℚ`; SQL timestamps as
integer time values; nullable SQL columns as `Option`; dynamically typed
JSON data as an explicit `JsonValue` type.
-/

namespace EarlyShift

/-- Python `str.lower()` restricted to ASCII, applied character-wise.
`Char.toLower` lowers exactly the characters `A`-`Z`, which agrees with
Python for the ASCII range. -/
def lowerStr (s : List Char) : List Char := s.map Char.toLower

/-- The ASCII whitespace characters recognised by Python's `\s` regex
class and by `str.strip()`: space, tab, newline, carriage return,
vertical tab and form feed. -/
def isPySpace (c : Char) : Bool :=
  c == ' ' || c == '\t' || c == '\n' || c == '\r' || c == '\x0b' || c == '\x0c'

/-- Characters matched by the separator class `[:\-\s]` of
`MECHANIC_REGEX` in src/mechanic_detector.py line 45. -/
def isSepChar (c : Char) : Bool :=
  c == ':' || c == '-' || isPySpace c

/-- Python `str.strip()`: drop whitespace from both ends. -/
def pyStrip (s : List Char) : List Char :=
  ((s.dropWhile isPySpace).reverse.dropWhile isPySpace).reverse

/-- Python's substring test `needle in hay` on strings. -/
def isSubstrOf (needle : List Char) : List Char → Bool
  | [] => needle.isEmpty
  | c :: cs => needle.isPrefixOf (c :: cs) || isSubstrOf needle cs

/-- Length of a longest common subsequence of two character lists.  The
indel (insertion/deletion) edit distance used by rapidfuzz's `ratio` is
`a.length + b.length - 2 * lcsLen a b`. -/
def lcsLen : List Char → List Char → Nat
  | [], _ => 0
  | _ :: _, [] => 0
  | a :: as, b :: bs =>
    if a = b then lcsLen as bs + 1
    else max (lcsLen (a :: as) bs) (lcsLen as (b :: bs))
termination_by x y => x.length + y.length
decreasing_by
  all_goals simp [List.length_cons]
  all_goals omega

/-- rapidfuzz `fuzz.ratio`: normalised indel similarity in [0, 100],
`100 * (1 - dist / (len a + len b)) = 100 * 2 * lcs / (len a + len b)`,
with the convention that two empty strings score 100. -/
def indel_ratio_score (a b : List Char) : ℚ :=
  if a.length + b.length = 0 then 100
  else (100 * (2 * (lcsLen a b : ℚ))) / ((a.length : ℚ) + (b.length : ℚ))

/-- Candidate alignment windows examined by rapidfuzz's
`fuzz.partial_ratio` implementation for a needle `s1` no longer than the
haystack `s2`: prefixes `s2[:i]` for `1 ≤ i < len s1` whose last
character occurs in `s1`, all full windows `s2[i:i+len s1]` whose last
character occurs in `s1`, and suffixes `s2[i:]` for
`len s2 - len s1 + 1 ≤ i < len s2` whose first character occurs in `s1`.
The character-set test is the skip condition of the source algorithm. -/
def window_candidates (s1 s2 : List Char) : List (List Char) :=
  let len1 := s1.length
  let len2 := s2.length
  let prefixWins := (List.range' 1 (len1 - 1)).filterMap fun i =>
    match s2.get? (i - 1) with
    | some c => if s1.contains c then some (s2.take i) else none
    | none => none
  let fullWins := (List.range (len2 - len1 + 1)).filterMap fun i =>
    match s2.get? (i + len1 - 1) with
    | some c => if s1.contains c then some ((s2.drop i).take len1) else none
    | none => none
  let sufWins := (List.range' (len2 - len1 + 1) (len1 - 1)).filterMap fun i =>
    match s2.get? i with
    | some c => if s1.contains c then some (s2.drop i) else none
    | none => none
  prefixWins ++ fullWins ++ sufWins

/-- rapidfuzz `fuzz.partial_ratio`: the needle is the shorter input; the
score is the best `fuzz.ratio` over the examined alignment windows (the
score-cutoff threading of the source prunes only windows that cannot
improve the running maximum, so it does not change the value).  Two empty
strings score 100; an empty needle against a non-empty haystack scores 0
because every window is skipped by the character-set condition. -/
def sliding_ratio_score (a b : List Char) : ℚ :=
  if a.length = 0 ∧ b.length = 0 then 100
  else
    let p := if a.length ≤ b.length then (a, b) else (b, a)
    ((window_candidates p.1 p.2).map (indel_ratio_score p.1)).foldl max 0

/-- FUZZ_THRESHOLD from src/mechanic_detector.py line 26. -/
def FUZZ_THRESHOLD : ℚ := 82

/-- KEYWORD_HINTS from src/mechanic_detector.py lines 16-25. -/
def KEYWORD_HINTS : List (List Char) :=
  ["new", "update", "secret", "mechanic", "code", "feature", "quest", "event"].map
    String.toList

/-- GROWTH_THRESHOLD from src/mechanic_detector.py line 14. -/
def GROWTH_THRESHOLD : ℚ := 1 / 4

/-- MENTION_LOOKBACK_HOURS from src/mechanic_detector.py line 15. -/
def MENTION_LOOKBACK_HOURS : Int := 48

/-- Embedding of `_video_matches_game` (src/mechanic_detector.py lines
230-237): fuzzy partial score of the lower-cased strings at least 82, or
else some keyword hint occurs in the lower-cased title while the
lower-cased game name occurs in the lower-cased title. -/
def video_matches_game (game_name video_title : List Char) : Bool :=
  if FUZZ_THRESHOLD ≤ sliding_ratio_score (lowerStr game_name) (lowerStr video_title) then
    true
  else
    KEYWORD_HINTS.any fun kw =>
      isSubstrOf kw (lowerStr video_title) &&
        isSubstrOf (lowerStr game_name) (lowerStr video_title)

/-- The trigger keywords of MECHANIC_REGEX (src/mechanic_detector.py
lines 44-46), in alternation order. -/
def MECHANIC_KEYWORDS : List (List Char) :=
  ["new", "secret", "update", "introducing", "added", "unlock", "mechanic",
   "feature", "quest", "code"].map String.toList

/-- Embedding of `MECHANIC_REGEX.search(title)` followed by
`match.group(1)`.  The regex is case-insensitive; `search` scans for the
leftmost position at which some trigger keyword matches (no keyword in
the list is a prefix of another, so the matching keyword is unique); the
separator class `[:\-\s]*` is then consumed greedily, and the greedy
capture `(.*)` collects the remaining characters up to the next newline
(`.` does not match a newline).  Returns the captured group, or `none`
when the regex does not match. -/
def mechanic_regex_search : List Char → Option (List Char)
  | [] => none
  | c :: cs =>
    match MECHANIC_KEYWORDS.find? (fun kw => kw.isPrefixOf (lowerStr (c :: cs))) with
    | some kw =>
      some ((((c :: cs).drop kw.length).dropWhile isSepChar).takeWhile fun ch => ch ≠ '\n')
    | none => mechanic_regex_search cs

/-- Embedding of `_extract_mechanic` (src/mechanic_detector.py lines
49-54): on a regex match, the captured text stripped and truncated to
120 characters; otherwise the first 120 characters of the raw title. -/
def extract_mechanic (title : List Char) : List Char :=
  match mechanic_regex_search title with
  | some captured => (pyStrip captured).take 120
  | none => title.take 120

/-- One row of the `games` snapshot table (see `_init_db` in
src/roproxy_client.py lines 67-85).  The poller always writes all four
columns, so they are modelled as non-null. -/
structure GameRow where
  universe_id : Int
  name : List Char
  ccu : Int
  timestamp : Int
  deriving DecidableEq

/-- A growth-candidate dictionary produced by `_read_growth_candidates`
(src/mechanic_detector.py lines 195-204). -/
structure GrowthCandidate where
  universe_id : Int
  game_name : List Char
  current_ccu : Int
  week_ago_ccu : Int
  growth_percent : ℚ
  current_timestamp : Int
  deriving DecidableEq

/-- Deduplication keeping the first occurrence, as Python's
`list(dict.fromkeys(...))` does. -/
def dedupFirst : List Int → List Int
  | [] => []
  | x :: xs => x :: dedupFirst (xs.filter fun y => y != x)
termination_by l => l.length
decreasing_by
  simp only [List.length_cons]
  exact Nat.lt_succ_of_le (List.length_filter_le _ _)

/-- The row selected by `ROW_NUMBER() OVER (... ORDER BY timestamp DESC)
... WHERE row_num = 1`: a row of maximal timestamp.  The SQL leaves ties
unspecified; this model deterministically keeps the earliest listed row
among ties. -/
def max_ts_row : List GameRow → Option GameRow
  | [] => none
  | r :: rs =>
    match max_ts_row rs with
    | none => some r
    | some b => if b.timestamp > r.timestamp then some b else some r

/-- The `filtered_latest` CTE of `_read_growth_candidates` restricted to
one universe id: the most recent snapshot of that universe. -/
def latest_snapshot (g : List GameRow) (uid : Int) : Option GameRow :=
  max_ts_row (g.filter fun r => r.universe_id == uid)

/-- The `filtered_week_ago` CTE restricted to one universe id: the most
recent snapshot with `timestamp <= current_timestamp - INTERVAL 7 DAY`;
`cutoff` stands for that boundary instant. -/
def week_ago_snapshot (g : List GameRow) (cutoff : Int) (uid : Int) : Option GameRow :=
  max_ts_row (g.filter fun r => r.universe_id == uid && decide (r.timestamp ≤ cutoff))

/-- Lookup of `game_metadata.name` for the `LEFT JOIN game_metadata`
of the growth query; the metadata table is passed as its
`(universe_id, name)` projection, with `none` standing for a NULL name
or an absent row, so that `COALESCE(meta.name, cur.name)` becomes
`(meta_name meta uid).getD cur.name`. -/
def meta_name (meta : List (Int × Option (List Char))) (uid : Int) : Option (List Char) :=
  match meta.find? (fun kv => kv.1 == uid) with
  | some kv => kv.2
  | none => none

/-- The contribution of one universe id to `_read_growth_candidates`
(src/mechanic_detector.py lines 148-205): join the latest snapshot with
the latest week-old snapshot, keep only `prev.ccu > 0` (SQL `WHERE`),
compute `growth_rate = (cur.ccu - prev.ccu) / prev.ccu` (exact, since the
`NULLIF` guard is redundant under `prev.ccu > 0`), and keep only
`growth_rate >= growth_threshold` (the Python filter; the rate is never
None here).  The name is `COALESCE(meta.name, cur.name)` with the Python
`or "Unknown"` default for an empty result, and
`growth_percent = growth_rate * 100`. -/
def growth_step (g : List GameRow) (meta : List (Int × Option (List Char)))
    (cutoff : Int) (th : ℚ) (uid : Int) : Option GrowthCandidate :=
  match latest_snapshot g uid, week_ago_snapshot g cutoff uid with
  | some cur, some prev =>
    if 0 < prev.ccu then
      if th ≤ ((cur.ccu : ℚ) - (prev.ccu : ℚ)) / (prev.ccu : ℚ) then
        some
          { universe_id := uid
            game_name :=
              if (meta_name meta uid).getD cur.name = [] then "Unknown".toList
              else (meta_name meta uid).getD cur.name
            current_ccu := cur.ccu
            week_ago_ccu := prev.ccu
            growth_percent := (((cur.ccu : ℚ) - (prev.ccu : ℚ)) / (prev.ccu : ℚ)) * 100
            current_timestamp := cur.timestamp }
      else none
    else none
  | _, _ => none

/-- Embedding of `_read_growth_candidates`: one candidate per universe id
that has both a current and a week-old snapshot, a positive baseline and
a growth rate meeting the threshold.  The SQL result order is
unspecified; the model iterates universe ids in first-appearance order. -/
def read_growth_candidates (g : List GameRow) (meta : List (Int × Option (List Char)))
    (cutoff : Int) (th : ℚ) : List GrowthCandidate :=
  (dedupFirst (g.map fun r => r.universe_id)).filterMap (growth_step g meta cutoff th)

/-- One row of the `youtube_videos` table as read by
`_fetch_recent_videos`; `title` and `channel_title` are nullable. -/
structure VideoRow where
  video_id : List Char
  channel_title : Option (List Char)
  title : Option (List Char)
  published_at : Int
  view_count : Int
  deriving DecidableEq

/-- Embedding of `_fetch_recent_videos` (src/mechanic_detector.py lines
208-227): rows with `published_at >= since`. -/
def fetch_recent_videos (videos : List VideoRow) (since : Int) : List VideoRow :=
  videos.filter fun v => decide (since ≤ v.published_at)

/-- The MechanicSpike dataclass (src/mechanic_detector.py lines 29-41). -/
structure MechanicSpike where
  universe_id : Int
  game_name : List Char
  current_ccu : Int
  week_ago_ccu : Int
  growth_percent : ℚ
  published_at : Int
  mechanic : List Char
  video_title : List Char
  video_url : List Char
  channel_title : Option (List Char)
  detected_at : Int
  deriving DecidableEq

/-- The f-string `https://youtube.com/watch?v={video_id}` of
src/mechanic_detector.py line 275. -/
def video_url_for (vid : List Char) : List Char :=
  "https://youtube.com/watch?v=".toList ++ vid

/-- The spike built for one matching (candidate, video) pair in
`detect_mechanic_spikes` (src/mechanic_detector.py lines 265-279). -/
def spike_for (c : GrowthCandidate) (v : VideoRow) (title : List Char)
    (now : Int) : MechanicSpike :=
  { universe_id := c.universe_id
    game_name := c.game_name
    current_ccu := c.current_ccu
    week_ago_ccu := c.week_ago_ccu
    growth_percent := c.growth_percent
    published_at := v.published_at
    mechanic := extract_mechanic title
    video_title := title
    video_url := video_url_for v.video_id
    channel_title := v.channel_title
    detected_at := now }

/-- The body of the inner loop of `detect_mechanic_spikes`
(src/mechanic_detector.py lines 258-279) for one candidate and one
video: take the title (`video["title"] or ""`, so a NULL title becomes
the empty string), skip the video when the title is empty, skip it when
it does not match the candidate, and otherwise emit a spike stamped with
the detection time `now`. -/
def spike_step (c : GrowthCandidate) (now : Int) (v : VideoRow) : Option MechanicSpike :=
  if v.title.getD [] = [] then none
  else if video_matches_game c.game_name (v.title.getD []) then
    some (spike_for c v (v.title.getD []) now)
  else none

/-- Embedding of the pure core of `detect_mechanic_spikes`
(src/mechanic_detector.py lines 240-285): read growth candidates, return
early when there are none, fetch videos published since `since`
(`now - lookback_hours`), and run the matching loop over every
(candidate, video) pair. -/
def detect_mechanic_spikes (g : List GameRow) (meta : List (Int × Option (List Char)))
    (videos : List VideoRow) (cutoff since now : Int) (th : ℚ) : List MechanicSpike :=
  if (read_growth_candidates g meta cutoff th).isEmpty then []
  else
    (read_growth_candidates g meta cutoff th).flatMap fun c =>
      (fetch_recent_videos videos since).filterMap (spike_step c now)

/-- A JSON value as produced by Python's `json.loads`: null, booleans,
numbers (this model restricts numbers to integers; the code only ever
writes and reads integer ids and timestamp strings), strings, arrays and
objects.  Python `None` is `jnull`. -/
inductive JsonValue where
  | jnull
  | jbool (b : Bool)
  | jnum (n : Int)
  | jstr (s : List Char)
  | jarr (items : List JsonValue)
  | jobj (fields : List (List Char × JsonValue))

/-- Python `dict.get(key)` on a parsed JSON object (keys are unique in a
dictionary, so first match suffices). -/
def objGet (fields : List (List Char × JsonValue)) (key : List Char) : Option JsonValue :=
  match fields.find? (fun kv => kv.1 == key) with
  | some kv => some kv.2
  | none => none

/-- Python truthiness of a JSON value: `None`, `False`, `0`, and empty
strings, lists and dicts are falsy. -/
def isTruthy : JsonValue → Bool
  | .jnull => false
  | .jbool b => b
  | .jnum n => n != 0
  | .jstr s => !s.isEmpty
  | .jarr items => !items.isEmpty
  | .jobj fields => !fields.isEmpty

/-- The Python exceptions that the modelled code can raise and does not
catch. -/
inductive PyError where
  | attributeError
  | typeError
  | valueError
  deriving DecidableEq

/-- A digit parser used to model the partial library functions
`datetime.fromisoformat` and `int(...)` on strings: `some` of the value
when every character is a decimal digit (an optional leading minus sign
is allowed for `int`), `none` otherwise. -/
def parseDigitsAux : List Char → Nat → Option Nat
  | [], acc => some acc
  | c :: cs, acc =>
    if c.isDigit then parseDigitsAux cs (acc * 10 + (c.toNat - 48))
    else none

/-- Parse a non-empty all-digit string. -/
def parseDigits : List Char → Option Nat
  | [] => none
  | c :: cs => parseDigitsAux (c :: cs) 0

/-- Model of `datetime.fromisoformat` on the string argument: timestamps
are modelled as integer time values and their serialised form as the
decimal digit string, so parsing succeeds exactly on non-empty digit
strings and raises `ValueError` (signalled by `none`) on anything else.
The only properties of the real function that the claims rely on are
that it inverts the writer's `isoformat` and fails on non-timestamp
strings. -/
def fromisoformat (s : List Char) : Option Int :=
  (parseDigits s).map fun n => (n : Int)

/-- Model of `datetime.utcnow().isoformat()`: the decimal digit string of
the integer time value (time values are taken non-negative). -/
def isoformat (t : Int) : List Char :=
  Nat.toDigits 10 t.toNat

/-- Python `int(x)` on a JSON value: the integer itself, a boolean as 0
or 1, a string of digits with an optional sign; everything else raises
(`ValueError` for a non-numeric string, `TypeError` otherwise). -/
def toIntPy : JsonValue → Except PyError Int
  | .jnum n => .ok n
  | .jbool b => .ok (if b then 1 else 0)
  | .jstr s =>
    match s with
    | '-' :: rest =>
      match parseDigits rest with
      | some n => .ok (-(n : Int))
      | none => .error .valueError
    | _ =>
      match parseDigits s with
      | some n => .ok ((n : Int))
      | none => .error .valueError
  | _ => .error .typeError

/-- Python iteration of `int(uid) for uid in v`: over a list element by
element, over a string character by character, over a dict by its keys;
a number, boolean or `None` is not iterable and raises `TypeError`. -/
def pyIntList : JsonValue → Except PyError (List Int)
  | .jarr items => items.mapM toIntPy
  | .jstr s => s.mapM fun c => toIntPy (.jstr [c])
  | .jobj fields => fields.mapM fun kv => toIntPy (.jstr kv.1)
  | _ => .error .typeError

/-- The state of the resolver's cache file as seen by
`_load_cached_universes`: absent, present but not syntactically valid
JSON (so that `json.loads` raises `JSONDecodeError`), or present with a
parsed JSON value. -/
inductive CacheFileState where
  | missing
  | unparsable
  | parsed (v : JsonValue)

/-- FALLBACK_UNIVERSES from src/roproxy_client.py lines 17-26. -/
def FALLBACK_UNIVERSES : List Int :=
  [994732206, 245662005, 383310974, 47545, 210851291, 4924922222, 185655149,
   10977891899, 5902977743, 8737602446, 1537690962, 1182249705, 142823291,
   1400147734, 920587237, 8149070699, 3351674303, 5569431581, 6381829480,
   4872321990, 4520749081, 13822889, 9498006165, 488667523, 286090429,
   3823781113, 447452406, 2010620636, 2013640567, 3291301470, 511316432,
   2216618303, 3145447021, 5926001758, 3192707582, 275420544, 263761432,
   92012076, 1377239466, 6284583030, 2988862959, 2583109575, 1540764883,
   5763726676, 3019923553, 5938036553]

/-- DEFAULT_CACHE_HOURS from src/roproxy_client.py line 33. -/
def DEFAULT_CACHE_HOURS : Int := 4

/-- Embedding of `_load_cached_universes` (src/roproxy_client.py lines
149-162).  A missing file returns `None`; `json.loads` failure is caught
(`except json.JSONDecodeError`) and returns `None`; `.get` on a non-dict
raises `AttributeError`; a missing or falsy `generated_at` returns
`None`; `datetime.fromisoformat` raises `TypeError` on a non-string and
`ValueError` on a string that is not a timestamp, and neither is caught;
a stale entry (`utcnow - generated_at > cache_ttl`) returns `None`;
otherwise the `universe_ids` entry (defaulting to the empty list) is
converted element-wise by `int`. -/
def load_cached_universes (file : CacheFileState) (now ttl : Int) :
    Except PyError (Option (List Int)) :=
  match file with
  | .missing => .ok none
  | .unparsable => .ok none
  | .parsed (.jobj fields) =>
    match objGet fields "generated_at".toList with
    | none => .ok none
    | some ts =>
      if isTruthy ts then
        match ts with
        | .jstr s =>
          match fromisoformat s with
          | none => .error .valueError
          | some gen =>
            if ttl < now - gen then .ok none
            else
              match objGet fields "universe_ids".toList with
              | none => .ok (some [])
              | some v => (pyIntList v).map some
        | _ => .error .typeError
      else .ok none
  | .parsed _ => .error .attributeError

/-- Embedding of `_save_cached_universes` (src/roproxy_client.py lines
164-169): the new cache file holds the current time as `generated_at`
and the first-occurrence-deduplicated ids as `universe_ids`. -/
def save_cached_universes (ids : List Int) (now : Int) : CacheFileState :=
  .parsed (.jobj
    [("generated_at".toList, .jstr (isoformat now)),
     ("universe_ids".toList, .jarr ((dedupFirst ids).map .jnum))])

/-- Embedding of `get_top_universe_ids` (src/roproxy_client.py lines
171-181).  `discovered` stands for the result of the network call
`_fetch_top_universes(limit)` (at most `limit` ids, possibly empty when
every discovery endpoint failed or returned nothing).  A truthy cached
list is returned truncated to `limit` with the cache untouched;
otherwise a non-empty discovery result is saved and returned as is;
otherwise the fallback seed list is saved and returned truncated to
`limit`.  The result pairs the returned ids with the resulting cache
file state. -/
def get_top_universe_ids (file : CacheFileState) (now ttl : Int)
    (discovered : List Int) (limit : Nat) :
    Except PyError (List Int × CacheFileState) :=
  match load_cached_universes file now ttl with
  | .error e => .error e
  | .ok cached =>
    if (cached.getD []).isEmpty then
      if discovered.isEmpty then
        .ok (FALLBACK_UNIVERSES.take limit, save_cached_universes FALLBACK_UNIVERSES now)
      else .ok (discovered, save_cached_universes discovered now)
    else .ok ((cached.getD []).take limit, file)

/-- The UniverseSnapshot dataclass (src/roproxy_client.py lines 37-48).
The payload fields are dynamically typed in Python, so they are kept as
JSON values here; Python `None` is `jnull`. -/
structure UniverseSnapshot where
  universe_id : Int
  name : JsonValue
  ccu : JsonValue
  root_place_id : JsonValue
  description : JsonValue
  creator_id : JsonValue
  creator_name : JsonValue
  genre : JsonValue
  visits : JsonValue

/-- The degraded snapshot built at src/roproxy_client.py lines 210-220:
metric 0, name "Unknown", every optional field None. -/
def zero_snapshot (uid : Int) : UniverseSnapshot :=
  { universe_id := uid
    name := .jstr "Unknown".toList
    ccu := .jnum 0
    root_place_id := .jnull
    description := .jnull
    creator_id := .jnull
    creator_name := .jnull
    genre := .jnull
    visits := .jnull }

/-- The outcome of the HTTP request issued by
`_fetch_universe_snapshot`: either some exception was raised during the
request or while decoding the body (network error, timeout, malformed
JSON — all caught by the `except Exception` handler), or a response with
a status code and a decoded JSON payload was obtained. -/
inductive HttpOutcome where
  | exn
  | success (status : Int) (payload : JsonValue)

/-- The happy-path snapshot built from the first element `g` of a truthy
`data` list (src/roproxy_client.py lines 195-207): `creator` is
`game.get("creator") or {}`; if that value is not a dict, `.get` on it
raises and the handler degrades to the zero snapshot; otherwise each
field is read with `.get` and its source default. -/
def snapshot_of_game (uid : Int) : JsonValue → UniverseSnapshot
  | .jobj gf =>
    match (if isTruthy ((objGet gf "creator".toList).getD .jnull) then
            (objGet gf "creator".toList).getD .jnull
          else .jobj []) with
    | .jobj cf =>
      { universe_id := uid
        name := (objGet gf "name".toList).getD (.jstr "Unknown".toList)
        ccu := (objGet gf "playing".toList).getD (.jnum 0)
        root_place_id := (objGet gf "rootPlaceId".toList).getD .jnull
        description := (objGet gf "description".toList).getD .jnull
        creator_id := (objGet cf "id".toList).getD .jnull
        creator_name := (objGet cf "name".toList).getD .jnull
        genre := (objGet gf "genre".toList).getD .jnull
        visits := (objGet gf "visits".toList).getD .jnull }
    | _ => zero_snapshot uid
  | _ => zero_snapshot uid

/-- Dispatch on a truthy `data` value: `data[0]` succeeds only on a
non-empty list (subscripting anything else raises and the handler
degrades to the zero snapshot). -/
def snapshot_of_data (uid : Int) : JsonValue → UniverseSnapshot
  | .jarr (g :: _) => snapshot_of_game uid g
  | _ => zero_snapshot uid

/-- Dispatch on `payload.get("data")` (src/roproxy_client.py lines
193-194): a missing or falsy `data` degrades to the zero snapshot. -/
def snapshot_of_payload_data (uid : Int) : Option JsonValue → UniverseSnapshot
  | some d => if isTruthy d then snapshot_of_data uid d else zero_snapshot uid
  | none => zero_snapshot uid

/-- Embedding of `_fetch_universe_snapshot` (src/roproxy_client.py lines
183-220) as a function of the request outcome.  Any exception and any
response that is not a status-200 JSON object with a truthy `data` list
whose first element is an object (with an object or falsy `creator`)
degrade to the zero snapshot; the `except Exception` handler also turns
the subscripting and attribute errors raised on ill-shaped payloads into
the zero snapshot. -/
def fetch_universe_snapshot (uid : Int) (out : HttpOutcome) : UniverseSnapshot :=
  match out with
  | .exn => zero_snapshot uid
  | .success status payload =>
    if status = 200 then
      match payload with
      | .jobj fields => snapshot_of_payload_data uid (objGet fields "data".toList)
      | _ => zero_snapshot uid
    else zero_snapshot uid

/-- One row of the `game_metadata` table (src/roproxy_client.py lines
86-101), keyed by `universe_id`. -/
structure MetaRow where
  universe_id : Int
  name : JsonValue
  root_place_id : JsonValue
  creator_id : JsonValue
  creator_name : JsonValue
  description : JsonValue
  genre : JsonValue
  visits : JsonValue
  last_seen_ccu : JsonValue
  updated_at : Int

/-- The persisted database state touched by `poll_top_games`: the
`games` snapshot table and the `game_metadata` table. -/
structure DbState where
  games : List GameRow
  metadata : List MetaRow

/-- The empty database state. -/
def dbEmpty : DbState := { games := [], metadata := [] }

/-- The SQL statements executed by the persistence loop of
`poll_top_games` (src/roproxy_client.py lines 260-269): the metadata
upsert of `_upsert_metadata`, the delete of any existing
`(universe_id, timestamp)` snapshot row, and the insert of the new
snapshot row. -/
inductive DbStmt where
  | upsertMeta (s : UniverseSnapshot) (now : Int)
  | deleteSnap (uid : Int) (ts : Int)
  | insertSnap (row : GameRow)

/-- The snapshot row inserted for one universe: DuckDB coerces the
dynamically typed name and ccu into the TEXT and INTEGER columns; the
happy-path and degraded snapshots store a string name and an integer
ccu, read back as those values (non-conforming values are modelled by
their defaults). -/
def snapshot_text : JsonValue → List Char
  | .jstr s => s
  | _ => []

/-- Integer stored in an INTEGER column for a dynamically typed value. -/
def snapshot_int : JsonValue → Int
  | .jnum n => n
  | _ => 0

/-- Effect of one statement on the database state.  `INSERT OR REPLACE`
removes any metadata row with the same primary key and appends the new
one; the snapshot delete removes rows matching both key columns; the
snapshot insert appends. -/
def applyStmt (st : DbState) : DbStmt → DbState
  | .upsertMeta s now =>
    { st with metadata :=
        (st.metadata.filter fun m => m.universe_id != s.universe_id) ++
          [{ universe_id := s.universe_id
             name := s.name
             root_place_id := s.root_place_id
             creator_id := s.creator_id
             creator_name := s.creator_name
             description := s.description
             genre := s.genre
             visits := s.visits
             last_seen_ccu := s.ccu
             updated_at := now }] }
  | .deleteSnap uid ts =>
    { st with games :=
        st.games.filter fun r => !(r.universe_id == uid && r.timestamp == ts) }
  | .insertSnap row => { st with games := st.games ++ [row] }

/-- The `games` row inserted for one snapshot at the batch timestamp
(src/roproxy_client.py lines 266-269). -/
def snapshot_row (s : UniverseSnapshot) (ts : Int) : GameRow :=
  { universe_id := s.universe_id
    name := snapshot_text s.name
    ccu := snapshot_int s.ccu
    timestamp := ts }

/-- The statement sequence issued by the persistence loop of
`poll_top_games` for the gathered snapshots, in program order: for each
snapshot, upsert metadata, delete the `(universe_id, timestamp)` row,
insert the new row.  All snapshots share the single batch timestamp. -/
def poll_stmts (snaps : List UniverseSnapshot) (ts : Int) : List DbStmt :=
  snaps.flatMap fun s =>
    [.upsertMeta s ts, .deleteSnap s.universe_id ts, .insertSnap (snapshot_row s ts)]

/-- Run a statement list against a state. -/
def run_stmts (st : DbState) (stmts : List DbStmt) : DbState :=
  stmts.foldl applyStmt st

/-- Durable state when execution stops after the first `k` statements.
`poll_top_games` never issues `BEGIN TRANSACTION`; DuckDB's Python API
runs in autocommit mode by default, so every completed `execute` is
durable on its own and the trailing `commit()` is a no-op outside an
explicit transaction.  A failure after `k` statements therefore leaves
exactly the prefix applied. -/
def crash_state (init : DbState) (stmts : List DbStmt) (k : Nat) : DbState :=
  run_stmts init (stmts.take k)

/-- The snapshots gathered by `poll_top_games` for a list of universe
ids: ids are deduplicated preserving first occurrence, and each unique
id is fetched once (`outcome` gives each request's result). -/
def poll_snapshots (ids : List Int) (outcome : Int → HttpOutcome) : List UniverseSnapshot :=
  (dedupFirst ids).map fun uid => fetch_universe_snapshot uid (outcome uid)

/-- A well-formed cache file: a JSON object holding a serialised
`generated_at` timestamp and a `universe_ids` array. -/
def cache_file_of (ts : List Char) (ids : List Int) : CacheFileState :=
  .parsed (.jobj
    [("generated_at".toList, .jstr ts),
     ("universe_ids".toList, .jarr (ids.map .jnum))])

/-- A concrete fully populated snapshot used in the poll-batch analysis. -/
def pollSnapA : UniverseSnapshot :=
  { universe_id := 1
    name := .jstr "A".toList
    ccu := .jnum 5
    root_place_id := .jnull
    description := .jnull
    creator_id := .jnull
    creator_name := .jnull
    genre := .jnull
    visits := .jnull }

/-- A second concrete snapshot with a distinct universe id. -/
def pollSnapB : UniverseSnapshot :=
  { universe_id := 2
    name := .jstr "B".toList
    ccu := .jnum 7
    root_place_id := .jnull
    description := .jnull
    creator_id := .jnull
    creator_name := .jnull
    genre := .jnull
    visits := .jnull }

/- ------------------------------------------------------------------ -/
/- Theorems                                                            -/
/- ------------------------------------------------------------------ -/

/-- Python's substring test agrees with the infix relation on lists. -/
theorem isSubstrOf_iff (n : List Char) : ∀ h : List Char, isSubstrOf n h = true ↔ n <:+: h := by
  intro h
  induction h with
  | nil =>
    simp [isSubstrOf, List.isEmpty_iff, List.infix_nil]
  | cons c cs ih =>
    simp only [isSubstrOf, Bool.or_eq_true, List.isPrefixOf_iff_prefix, ih,
      List.infix_cons_iff]

/-- C2: for every candidate name and mention title, the correlator
declares a match if and only if the fuzzy partial-similarity score of
the case-folded strings is at least 82, or the case-folded title
contains some keyword of the fixed hint set while the case-folded
candidate name occurs as a literal substring of the case-folded title. -/
theorem video_match_rule_iff (game_name video_title : List Char) :
    video_matches_game game_name video_title = true ↔
      (82 ≤ sliding_ratio_score (lowerStr game_name) (lowerStr video_title) ∨
        ∃ kw ∈ KEYWORD_HINTS,
          kw <:+: lowerStr video_title ∧ lowerStr game_name <:+: lowerStr video_title) := by
  unfold video_matches_game
  split
  · rename_i hfuzz
    simp only [true_iff]
    exact Or.inl hfuzz
  · rename_i hfuzz
    rw [FUZZ_THRESHOLD] at hfuzz
    simp only [List.any_eq_true, Bool.and_eq_true, isSubstrOf_iff]
    constructor
    · rintro ⟨kw, hkw, h1, h2⟩
      exact Or.inr ⟨kw, hkw, h1, h2⟩
    · rintro (h | ⟨kw, hkw, h1, h2⟩)
      · exact absurd h hfuzz
      · exact ⟨kw, hkw, h1, h2⟩

/-- C5: whenever the per-candidate metric fetch fails — an exception
(network error, timeout, undecodable body), a non-200 status, or a
status-200 payload whose `data` entry is missing or empty/falsy — the
fetch degrades to the zero-value snapshot: metric 0, name "Unknown",
every optional field null.  The function is total, so no such failure
ever raises or aborts the batch. -/
theorem fetch_failure_zero_snapshot (uid : Int) (out : HttpOutcome)
    (h : out = .exn ∨
      (∃ s p, out = .success s p ∧ s ≠ 200) ∨
      (∃ fields, out = .success 200 (.jobj fields) ∧
        (objGet fields "data".toList = none ∨
          ∃ d, objGet fields "data".toList = some d ∧ isTruthy d = false))) :
    fetch_universe_snapshot uid out =
      { universe_id := uid
        name := .jstr "Unknown".toList
        ccu := .jnum 0
        root_place_id := .jnull
        description := .jnull
        creator_id := .jnull
        creator_name := .jnull
        genre := .jnull
        visits := .jnull } := by
  have hz : zero_snapshot uid =
      { universe_id := uid
        name := .jstr "Unknown".toList
        ccu := .jnum 0
        root_place_id := .jnull
        description := .jnull
        creator_id := .jnull
        creator_name := .jnull
        genre := .jnull
        visits := .jnull } := rfl
  rcases h with rfl | ⟨s, p, rfl, hs⟩ | ⟨fields, rfl, hd⟩
  · exact hz
  · rw [← hz]
    simp only [fetch_universe_snapshot, if_neg hs]
  · rw [← hz]
    simp only [fetch_universe_snapshot, if_pos rfl]
    rcases hd with hd | ⟨d, hd, hdf⟩
    · rw [hd]
      simp [snapshot_of_payload_data]
    · rw [hd]
      simp [snapshot_of_payload_data, hdf]

/-- Converting a list of JSON integers back with Python `int` succeeds
and is the identity. -/
theorem mapM_toIntPy_jnum : ∀ ids : List Int,
    (ids.map JsonValue.jnum).mapM toIntPy = Except.ok ids := by
  intro ids
  induction ids with
  | nil => rfl
  | cons a l ih =>
    rw [List.map_cons, List.mapM_cons, ih]
    rfl

/-- Reading the `generated_at` field of a well-formed cache file. -/
theorem objGet_cache_gen (ts : List Char) (rest : List (List Char × JsonValue)) :
    objGet (("generated_at".toList, JsonValue.jstr ts) :: rest) "generated_at".toList =
      some (JsonValue.jstr ts) := rfl

/-- Reading the `universe_ids` field of a well-formed cache file. -/
theorem objGet_cache_ids (ts : List Char) (ids : List Int) :
    objGet [("generated_at".toList, JsonValue.jstr ts),
            ("universe_ids".toList, JsonValue.jarr (ids.map JsonValue.jnum))]
        "universe_ids".toList =
      some (JsonValue.jarr (ids.map JsonValue.jnum)) := rfl

/-- Loading a well-formed cache file whose timestamp parses to `gen`
returns the id list when the age is within the TTL and a cache miss
otherwise, raising nothing. -/
theorem load_cache_file_of (ts : List Char) (gen now ttl : Int) (ids : List Int)
    (hts : fromisoformat ts = some gen) :
    load_cached_universes (cache_file_of ts ids) now ttl =
      if ttl < now - gen then .ok none else .ok (some ids) := by
  have hne : ts ≠ [] := by
    intro h
    rw [h] at hts
    simp [fromisoformat, parseDigits] at hts
  obtain ⟨c, cs, rfl⟩ : ∃ c cs, ts = c :: cs := by
    cases ts with
    | nil => exact absurd rfl hne
    | cons c cs => exact ⟨c, cs, rfl⟩
  simp only [cache_file_of, load_cached_universes, objGet_cache_gen]
  simp only [isTruthy, List.isEmpty_cons, Bool.not_false, if_true]
  rw [hts]
  simp only [objGet_cache_ids, pyIntList, mapM_toIntPy_jnum]
  rfl

/-- C4 counterexample: a cache entry whose age exactly equals the TTL
(generated at time 90, resolved at time 100 with TTL 10) is returned —
truncated to the limit, with the cache untouched — although the claim
requires age strictly less than the TTL, so such an entry ought to be
treated as expired. -/
theorem cache_ttl_boundary_counterexample :
    load_cached_universes (cache_file_of "90".toList [1, 2, 3]) 100 10 = .ok (some [1, 2, 3]) ∧
    get_top_universe_ids (cache_file_of "90".toList [1, 2, 3]) 100 10 [] 2 =
      .ok ([1, 2], cache_file_of "90".toList [1, 2, 3]) ∧
    ¬((100 : Int) - 90 < 10) := ⟨rfl, rfl, by decide⟩

/-- C4 amended: a cache entry generated at `gen` and resolved at `now`
with TTL `ttl` is honored iff `now - gen ≤ ttl` — the boundary
`now - gen = ttl` is treated as still valid, not expired — and an
honored non-empty entry is returned truncated to `limit` with the cache
file untouched. -/
theorem cache_ttl_le_iff (ts : List Char) (gen now ttl : Int) (ids : List Int)
    (disc : List Int) (limit : Nat)
    (hts : fromisoformat ts = some gen) :
    (load_cached_universes (cache_file_of ts ids) now ttl = .ok (some ids) ↔
      now - gen ≤ ttl) ∧
    (now - gen ≤ ttl → ids ≠ [] →
      get_top_universe_ids (cache_file_of ts ids) now ttl disc limit =
        .ok (ids.take limit, cache_file_of ts ids)) := by
  have hload := load_cache_file_of ts gen now ttl ids hts
  constructor
  · rw [hload]
    by_cases hfresh : ttl < now - gen
    · rw [if_pos hfresh]
      constructor
      · intro h
        simp at h
      · intro h
        omega
    · rw [if_neg hfresh]
      constructor
      · intro _
        omega
      · intro _
        rfl
  · intro hfresh hne
    simp only [get_top_universe_ids]
    rw [hload, if_neg (by omega)]
    simp only [Option.getD_some]
    rw [if_neg (by simp [List.isEmpty_iff, hne])]

/-- C4 amended witness: at the exact TTL boundary (age 10, TTL 10) the
entry is honored and returned truncated to the limit. -/
theorem cache_ttl_le_iff_witness :
    load_cached_universes (cache_file_of "90".toList [5, 6]) 100 10 = .ok (some [5, 6]) ∧
    get_top_universe_ids (cache_file_of "90".toList [5, 6]) 100 10 [] 1 =
      .ok ([5], cache_file_of "90".toList [5, 6]) :=
  ⟨(cache_ttl_le_iff "90".toList 90 100 10 [5, 6] [] 1 rfl).1.mpr (by decide),
   (cache_ttl_le_iff "90".toList 90 100 10 [5, 6] [] 1 rfl).2 (by decide) (by decide)⟩

/-- C9 counterexample: a syntactically valid cache file whose
`generated_at` value is a string that is not a valid timestamp makes
`_load_cached_universes` raise `ValueError` (from
`datetime.fromisoformat`), which is not caught — loading is not a silent
cache miss for this malformed content. -/
theorem cache_invalid_timestamp_raises :
    load_cached_universes
      (.parsed (.jobj
        [("generated_at".toList, .jstr "not-a-timestamp".toList),
         ("universe_ids".toList, .jarr [.jnum 1])])) 100 4 = .error .valueError := rfl

/-- C9 amended: the tolerated malformed-cache cases are a missing file,
unparsable JSON, and a parsed object whose `generated_at` field is
missing or falsy (absent, empty string, null, 0, false — the code's
`if not timestamp: return None`): each is a cache miss and never an
error.  A truthy `generated_at` that is not a valid timestamp instead
raises, as the counterexample shows. -/
theorem cache_miss_cases_no_error (now ttl : Int) (fields : List (List Char × JsonValue))
    (h : objGet fields "generated_at".toList = none ∨
      ∃ ts, objGet fields "generated_at".toList = some ts ∧ isTruthy ts = false) :
    load_cached_universes .missing now ttl = .ok none ∧
    load_cached_universes .unparsable now ttl = .ok none ∧
    load_cached_universes (.parsed (.jobj fields)) now ttl = .ok none := by
  refine ⟨rfl, rfl, ?_⟩
  simp only [load_cached_universes]
  rcases h with h | ⟨ts, h, htf⟩
  · rw [h]
  · rw [h]
    simp [htf]

/-- C9 amended witness: concrete instances of the tolerated cases — a
missing file, unparsable JSON, an object without a `generated_at` field,
and an object whose `generated_at` is the falsy empty string. -/
theorem cache_miss_cases_no_error_witness :
    (load_cached_universes .missing 0 4 = .ok none ∧
      load_cached_universes .unparsable 0 4 = .ok none ∧
      load_cached_universes (.parsed (.jobj [("universe_ids".toList, .jarr [])])) 0 4 =
        .ok none) ∧
    load_cached_universes
        (.parsed (.jobj [("generated_at".toList, .jstr []),
                         ("universe_ids".toList, .jarr [.jnum 1])])) 0 4 =
      .ok none :=
  ⟨cache_miss_cases_no_error 0 4 [("universe_ids".toList, .jarr [])] (Or.inl rfl),
   (cache_miss_cases_no_error 0 4
      [("generated_at".toList, .jstr []), ("universe_ids".toList, .jarr [.jnum 1])]
      (Or.inr ⟨.jstr [], rfl, rfl⟩)).2.2⟩

/-- C6: on a cache miss with every discovery endpoint yielding zero ids,
the resolver returns the hard-coded fallback seed list truncated to
`limit` — non-empty for every `limit ≥ 1` — and persists the fallback
list to the cache with a fresh `generated_at` timestamp; no error
surfaces to the caller. -/
theorem discovery_failure_fallback (file : CacheFileState) (now ttl : Int) (limit : Nat)
    (cached : Option (List Int))
    (hload : load_cached_universes file now ttl = .ok cached)
    (hmiss : cached.getD [] = [])
    (hlim : 1 ≤ limit) :
    get_top_universe_ids file now ttl [] limit =
      .ok (FALLBACK_UNIVERSES.take limit, save_cached_universes FALLBACK_UNIVERSES now) ∧
    FALLBACK_UNIVERSES.take limit ≠ [] ∧
    ∃ fields, save_cached_universes FALLBACK_UNIVERSES now = .parsed (.jobj fields) ∧
      objGet fields "generated_at".toList = some (.jstr (isoformat now)) := by
  refine ⟨?_, ?_, ?_⟩
  · simp only [get_top_universe_ids]
    rw [hload]
    simp [hmiss]
  · intro hcontra
    rw [List.take_eq_nil_iff] at hcontra
    rcases hcontra with h | h
    · omega
    · exact absurd h (by simp [FALLBACK_UNIVERSES])
  · exact ⟨_, rfl, rfl⟩

/-- C6 witness: with a missing cache file and an empty discovery result,
the resolver returns the first five fallback ids and saves the fallback
list. -/
theorem discovery_failure_fallback_witness :
    get_top_universe_ids .missing 100 4 [] 5 =
      .ok (FALLBACK_UNIVERSES.take 5, save_cached_universes FALLBACK_UNIVERSES 100) ∧
    FALLBACK_UNIVERSES.take 5 ≠ [] :=
  ⟨(discovery_failure_fallback .missing 100 4 5 none rfl rfl (by decide)).1,
   (discovery_failure_fallback .missing 100 4 5 none rfl rfl (by decide)).2.1⟩

/-- C5 witness: a network exception for universe 7 degrades to the
zero-value snapshot. -/
theorem fetch_failure_zero_snapshot_witness :
    fetch_universe_snapshot 7 .exn =
      { universe_id := 7
        name := .jstr "Unknown".toList
        ccu := .jnum 0
        root_place_id := .jnull
        description := .jnull
        creator_id := .jnull
        creator_name := .jnull
        genre := .jnull
        visits := .jnull } :=
  fetch_failure_zero_snapshot 7 .exn (Or.inl rfl)

/-- The regex search fails exactly when no trigger keyword occurs
(case-insensitively) anywhere in the title. -/
theorem mechanic_regex_search_eq_none_iff : ∀ title : List Char,
    mechanic_regex_search title = none ↔
      ∀ kw ∈ MECHANIC_KEYWORDS, ¬kw <:+: lowerStr title := by
  intro title
  induction title with
  | nil =>
    have hne : ∀ kw ∈ MECHANIC_KEYWORDS, kw ≠ [] := by decide
    simp only [mechanic_regex_search, true_iff]
    intro kw hkw hinf
    rw [show lowerStr [] = [] from rfl, List.infix_nil] at hinf
    exact hne kw hkw hinf
  | cons c cs ih =>
    have hlow : lowerStr (c :: cs) = Char.toLower c :: lowerStr cs := rfl
    simp only [mechanic_regex_search]
    cases hf : MECHANIC_KEYWORDS.find? (fun kw => kw.isPrefixOf (lowerStr (c :: cs))) with
    | some kw =>
      simp only [reduceCtorEq, false_iff, not_forall]
      have hmem := List.mem_of_find?_eq_some hf
      have hp := List.find?_some hf
      simp only [ List.isPrefixOf_iff_prefix] at hp
      have hpre : kw <+: lowerStr (c :: cs) := hp
      exact ⟨kw, hmem, not_not_intro hpre.isInfix⟩
    | none =>
      have hnopre : ∀ kw ∈ MECHANIC_KEYWORDS, ¬kw <+: lowerStr (c :: cs) := by
        intro kw hkw hpre
        have := List.find?_eq_none.mp hf kw hkw
        simp only [ List.isPrefixOf_iff_prefix] at this
        exact this hpre
      rw [ih]
      constructor
      · intro hall kw hkw hinf
        rw [hlow, List.infix_cons_iff] at hinf
        rcases hinf with hpre | hinf
        · exact hnopre kw hkw (hlow ▸ hpre)
        · exact hall kw hkw hinf
      · intro hall kw hkw hinf
        refine hall kw hkw ?_
        rw [hlow, List.infix_cons_iff]
        exact Or.inr hinf

/-- C8: mechanic-label extraction returns the regex capture (stripped)
truncated to 120 characters when some trigger keyword occurs in the
title, the first 120 characters of the raw title when none does, and in
every case a result of at most 120 characters. -/
theorem extract_mechanic_spec (title : List Char) :
    (mechanic_regex_search title = none ↔
      ∀ kw ∈ MECHANIC_KEYWORDS, ¬kw <:+: lowerStr title) ∧
    (mechanic_regex_search title = none → extract_mechanic title = title.take 120) ∧
    (∀ cap, mechanic_regex_search title = some cap →
      extract_mechanic title = (pyStrip cap).take 120) ∧
    (extract_mechanic title).length ≤ 120 := by
  refine ⟨mechanic_regex_search_eq_none_iff title, ?_, ?_, ?_⟩
  · intro h
    simp only [extract_mechanic, h]
  · intro cap h
    simp only [extract_mechanic, h]
  · cases hs : mechanic_regex_search title with
    | none =>
      simp only [extract_mechanic, hs, List.length_take]
      exact Nat.min_le_left _ _
    | some cap =>
      simp only [extract_mechanic, hs, List.length_take]
      exact Nat.min_le_left _ _

/-- C8 witness: a concrete title with a trigger keyword, its capture,
and the length bound. -/
theorem extract_mechanic_spec_witness :
    mechanic_regex_search "NEW Dragon Quest Update!".toList =
      some "Dragon Quest Update!".toList ∧
    extract_mechanic "NEW Dragon Quest Update!".toList =
      (pyStrip "Dragon Quest Update!".toList).take 120 ∧
    (extract_mechanic "NEW Dragon Quest Update!".toList).length ≤ 120 :=
  ⟨rfl,
   (extract_mechanic_spec "NEW Dragon Quest Update!".toList).2.2.1
     "Dragon Quest Update!".toList rfl,
   (extract_mechanic_spec "NEW Dragon Quest Update!".toList).2.2.2⟩

/-- A selected maximal-timestamp row belongs to the list. -/
theorem max_ts_row_mem : ∀ (l : List GameRow) (r : GameRow), max_ts_row l = some r → r ∈ l := by
  intro l
  induction l with
  | nil =>
    intro r h
    cases h
  | cons x xs ih =>
    intro r h
    rw [max_ts_row] at h
    cases hm : max_ts_row xs with
    | none =>
      simp only [hm] at h
      have hx := Option.some.inj h
      exact hx ▸ List.mem_cons_self x xs
    | some b =>
      simp only [hm] at h
      by_cases hbt : b.timestamp > x.timestamp
      · rw [if_pos hbt] at h
        have hb := Option.some.inj h
        exact List.mem_cons_of_mem x (hb ▸ ih b hm)
      · rw [if_neg hbt] at h
        have hx := Option.some.inj h
        exact hx ▸ List.mem_cons_self x xs

/-- First-occurrence deduplication preserves membership. -/
theorem mem_dedupFirst (a : Int) (l : List Int) : a ∈ dedupFirst l ↔ a ∈ l := by
  induction l using dedupFirst.induct with
  | case1 =>
    rw [dedupFirst]
  | case2 x xs ih =>
    rw [dedupFirst]
    by_cases hax : a = x
    · subst hax
      simp
    · simp only [List.mem_cons, hax, false_or, ih, List.mem_filter, bne_iff_ne,
        ne_eq, hax, not_false_eq_true, and_true]

/-- A candidate emitted for a universe id carries that id. -/
theorem growth_step_uid (g : List GameRow) (meta : List (Int × Option (List Char)))
    (cutoff : Int) (th : ℚ) (uid : Int) (c : GrowthCandidate)
    (h : growth_step g meta cutoff th uid = some c) : c.universe_id = uid := by
  unfold growth_step at h
  cases hl : latest_snapshot g uid with
  | none => simp [hl] at h
  | some cur =>
    cases hw : week_ago_snapshot g cutoff uid with
    | none => simp [hl, hw] at h
    | some prev =>
      simp only [hl, hw] at h
      by_cases h1 : 0 < prev.ccu
      · rw [if_pos h1] at h
        by_cases h2 : th ≤ ((cur.ccu : ℚ) - (prev.ccu : ℚ)) / (prev.ccu : ℚ)
        · rw [if_pos h2] at h
          have := Option.some.inj h
          rw [← this]
        · rw [if_neg h2] at h
          cases h
      · rw [if_neg h1] at h
        cases h

/-- C1: for every universe with a positive baseline metric, the growth
rate is computed exactly as `(current - baseline) / baseline` (the
stored `growth_percent` is exactly that rate times 100), and the
universe appears in the evaluator's output iff that rate is at least the
growth threshold. -/
theorem growth_rate_exact_and_threshold_iff
    (g : List GameRow) (meta : List (Int × Option (List Char))) (cutoff : Int) (th : ℚ)
    (uid : Int) (cur prev : GameRow)
    (hcur : latest_snapshot g uid = some cur)
    (hprev : week_ago_snapshot g cutoff uid = some prev)
    (hpos : 0 < prev.ccu) :
    ((∃ c ∈ read_growth_candidates g meta cutoff th, c.universe_id = uid) ↔
      th ≤ ((cur.ccu : ℚ) - (prev.ccu : ℚ)) / (prev.ccu : ℚ)) ∧
    ∀ c ∈ read_growth_candidates g meta cutoff th, c.universe_id = uid →
      c.growth_percent = ((cur.ccu : ℚ) - (prev.ccu : ℚ)) / (prev.ccu : ℚ) * 100 := by
  have hcur' : max_ts_row (g.filter fun r => r.universe_id == uid) = some cur := hcur
  have hmem_uid : uid ∈ g.map fun r => r.universe_id := by
    have hcmem := max_ts_row_mem _ cur hcur'
    rw [List.mem_filter] at hcmem
    exact List.mem_map.mpr ⟨cur, hcmem.1, beq_iff_eq.mp hcmem.2⟩
  have hstep : growth_step g meta cutoff th uid =
      if th ≤ ((cur.ccu : ℚ) - (prev.ccu : ℚ)) / (prev.ccu : ℚ) then
        some
          { universe_id := uid
            game_name :=
              if (meta_name meta uid).getD cur.name = [] then "Unknown".toList
              else (meta_name meta uid).getD cur.name
            current_ccu := cur.ccu
            week_ago_ccu := prev.ccu
            growth_percent := (((cur.ccu : ℚ) - (prev.ccu : ℚ)) / (prev.ccu : ℚ)) * 100
            current_timestamp := cur.timestamp }
      else none := by
    unfold growth_step
    simp only [hcur, hprev]
    rw [if_pos hpos]
  constructor
  · constructor
    · rintro ⟨c, hc, hcuid⟩
      obtain ⟨u, hu, hsu⟩ := List.mem_filterMap.mp hc
      have huuid := growth_step_uid g meta cutoff th u c hsu
      have heq : u = uid := by rw [← huuid, hcuid]
      rw [heq, hstep] at hsu
      by_cases hrate : th ≤ ((cur.ccu : ℚ) - (prev.ccu : ℚ)) / (prev.ccu : ℚ)
      · exact hrate
      · rw [if_neg hrate] at hsu
        cases hsu
    · intro hrate
      have hstep2 : growth_step g meta cutoff th uid = some
          { universe_id := uid
            game_name :=
              if (meta_name meta uid).getD cur.name = [] then "Unknown".toList
              else (meta_name meta uid).getD cur.name
            current_ccu := cur.ccu
            week_ago_ccu := prev.ccu
            growth_percent := (((cur.ccu : ℚ) - (prev.ccu : ℚ)) / (prev.ccu : ℚ)) * 100
            current_timestamp := cur.timestamp } := by
        rw [hstep, if_pos hrate]
      exact ⟨_, List.mem_filterMap.mpr ⟨uid, (mem_dedupFirst _ _).mpr hmem_uid, hstep2⟩, rfl⟩
  · intro c hc hcuid
    obtain ⟨u, hu, hsu⟩ := List.mem_filterMap.mp hc
    have huuid := growth_step_uid g meta cutoff th u c hsu
    have heq : u = uid := by rw [← huuid, hcuid]
    rw [heq, hstep] at hsu
    by_cases hrate : th ≤ ((cur.ccu : ℚ) - (prev.ccu : ℚ)) / (prev.ccu : ℚ)
    · rw [if_pos hrate] at hsu
      have := Option.some.inj hsu
      rw [← this]
    · rw [if_neg hrate] at hsu
      cases hsu

/-- C1 witness: a universe growing from baseline 50 to current 100 at
threshold 1/4 appears in the output, and the membership criterion is the
exact rational rate `(100 - 50) / 50 = 1`. -/
theorem growth_rate_exact_and_threshold_iff_witness :
    ∃ c ∈ read_growth_candidates
        [{ universe_id := 1, name := "A".toList, ccu := 100, timestamp := 10 },
         { universe_id := 1, name := "A".toList, ccu := 50, timestamp := 0 }] [] 0 (1 / 4),
      c.universe_id = 1 :=
  (growth_rate_exact_and_threshold_iff
      [{ universe_id := 1, name := "A".toList, ccu := 100, timestamp := 10 },
       { universe_id := 1, name := "A".toList, ccu := 50, timestamp := 0 }] [] 0 (1 / 4) 1
      { universe_id := 1, name := "A".toList, ccu := 100, timestamp := 10 }
      { universe_id := 1, name := "A".toList, ccu := 50, timestamp := 0 }
      rfl rfl (by decide)).1.mpr (by norm_num)

/-- C7: a universe whose baseline snapshot is missing, or whose baseline
metric is non-positive, never appears in the evaluator's output,
whatever its current metric; the evaluator is total, so the exclusion is
silent. -/
theorem nonpositive_baseline_excluded
    (g : List GameRow) (meta : List (Int × Option (List Char))) (cutoff : Int) (th : ℚ)
    (uid : Int)
    (h : week_ago_snapshot g cutoff uid = none ∨
      ∃ prev, week_ago_snapshot g cutoff uid = some prev ∧ prev.ccu ≤ 0) :
    ∀ c ∈ read_growth_candidates g meta cutoff th, c.universe_id ≠ uid := by
  intro c hc hcuid
  obtain ⟨u, hu, hsu⟩ := List.mem_filterMap.mp hc
  have huuid := growth_step_uid g meta cutoff th u c hsu
  have heq : u = uid := by rw [← huuid, hcuid]
  rw [heq] at hsu
  unfold growth_step at hsu
  rcases h with hw | ⟨prev, hw, hle⟩
  · cases hl : latest_snapshot g uid with
    | none => simp [hl, hw] at hsu
    | some cur => simp [hl, hw] at hsu
  · cases hl : latest_snapshot g uid with
    | none => simp [hl, hw] at hsu
    | some cur =>
      simp only [hl, hw] at hsu
      rw [if_neg (by omega : ¬0 < prev.ccu)] at hsu
      cases hsu

/-- C7 witness: a universe whose only week-old snapshot has metric 0
does not appear in the output even though its current metric is 100. -/
theorem nonpositive_baseline_excluded_witness :
    ¬∃ c ∈ read_growth_candidates
        [{ universe_id := 5, name := "A".toList, ccu := 100, timestamp := 10 },
         { universe_id := 5, name := "A".toList, ccu := 0, timestamp := 0 }] [] 0 (1 / 4),
      c.universe_id = 5 := by
  rintro ⟨c, hc, hcuid⟩
  exact nonpositive_baseline_excluded
    [{ universe_id := 5, name := "A".toList, ccu := 100, timestamp := 10 },
     { universe_id := 5, name := "A".toList, ccu := 0, timestamp := 0 }] [] 0 (1 / 4) 5
    (Or.inr ⟨{ universe_id := 5, name := "A".toList, ccu := 0, timestamp := 0 }, rfl,
      by decide⟩) c hc hcuid

/-- C10: a mention whose title is NULL or empty is silently skipped by
the detection loop: removing it from the video list leaves the detection
result unchanged, so it never matches any growth candidate and never
produces a spike. -/
theorem empty_title_video_skipped
    (g : List GameRow) (meta : List (Int × Option (List Char)))
    (vs₁ vs₂ : List VideoRow) (v : VideoRow) (cutoff since now : Int) (th : ℚ)
    (h : v.title = none ∨ v.title = some []) :
    detect_mechanic_spikes g meta (vs₁ ++ v :: vs₂) cutoff since now th =
      detect_mechanic_spikes g meta (vs₁ ++ vs₂) cutoff since now th := by
  have htitle : v.title.getD [] = [] := by
    rcases h with h | h <;> rw [h] <;> rfl
  have hstepv : ∀ c : GrowthCandidate, spike_step c now v = none := by
    intro c
    simp [spike_step, htitle]
  have key : ∀ c : GrowthCandidate,
      (fetch_recent_videos (vs₁ ++ v :: vs₂) since).filterMap (spike_step c now) =
        (fetch_recent_videos (vs₁ ++ vs₂) since).filterMap (spike_step c now) := by
    intro c
    simp only [fetch_recent_videos, List.filter_append, List.filter_cons]
    by_cases hp : since ≤ v.published_at
    · simp [hp, List.filterMap_append, hstepv c]
    · simp [hp]
  unfold detect_mechanic_spikes
  by_cases hcand : (read_growth_candidates g meta cutoff th).isEmpty
  · rw [if_pos hcand, if_pos hcand]
  · rw [if_neg hcand, if_neg hcand]
    exact congrArg _ (funext key)

/-- C10 witness: with one growing candidate, a single video whose title
is NULL yields the same (empty) spike list as no videos at all. -/
theorem empty_title_video_skipped_witness :
    detect_mechanic_spikes
        [{ universe_id := 1, name := "A".toList, ccu := 100, timestamp := 10 },
         { universe_id := 1, name := "A".toList, ccu := 50, timestamp := 0 }] []
        [{ video_id := "vid1".toList, channel_title := none, title := none,
           published_at := 50, view_count := 7 }] 0 0 100 (1 / 4) =
      detect_mechanic_spikes
        [{ universe_id := 1, name := "A".toList, ccu := 100, timestamp := 10 },
         { universe_id := 1, name := "A".toList, ccu := 50, timestamp := 0 }] []
        [] 0 0 100 (1 / 4) :=
  empty_title_video_skipped
    [{ universe_id := 1, name := "A".toList, ccu := 100, timestamp := 10 },
     { universe_id := 1, name := "A".toList, ccu := 50, timestamp := 0 }] [] [] []
    { video_id := "vid1".toList, channel_title := none, title := none,
      published_at := 50, view_count := 7 } 0 0 100 (1 / 4) (Or.inl rfl)

/-- C3 counterexample: with DuckDB's default autocommit (no
`BEGIN TRANSACTION` is ever issued by `poll_top_games`, so every
completed `execute` is durable by itself), a failure after the first
candidate's statements of a two-candidate batch leaves exactly one of
the two snapshot rows committed — a strict nonempty partial subset of
the batch. -/
theorem poll_batch_partial_commit :
    (crash_state dbEmpty (poll_stmts [pollSnapA, pollSnapB] 0) 3).games =
      [snapshot_row pollSnapA 0] ∧
    (run_stmts dbEmpty (poll_stmts [pollSnapA, pollSnapB] 0)).games =
      [snapshot_row pollSnapA 0, snapshot_row pollSnapB 0] ∧
    [snapshot_row pollSnapA 0] ≠ ([] : List GameRow) ∧
    [snapshot_row pollSnapA 0] ≠ [snapshot_row pollSnapA 0, snapshot_row pollSnapB 0] :=
  ⟨rfl, rfl, by decide, by decide⟩

/-- Taking whole per-candidate chunks of the statement list polls a
prefix of the batch. -/
theorem poll_stmts_take : ∀ (snaps : List UniverseSnapshot) (ts : Int) (j : Nat),
    (poll_stmts snaps ts).take (3 * j) = poll_stmts (snaps.take j) ts := by
  intro snaps
  induction snaps with
  | nil =>
    intro ts j
    simp [poll_stmts]
  | cons s rest ih =>
    intro ts j
    cases j with
    | zero => rfl
    | succ j =>
      have h3 : 3 * (j + 1) = 3 * j + 1 + 1 + 1 := by ring
      have hpoll : poll_stmts (s :: rest) ts =
          DbStmt.upsertMeta s ts :: DbStmt.deleteSnap s.universe_id ts ::
            DbStmt.insertSnap (snapshot_row s ts) :: poll_stmts rest ts := by
        simp [poll_stmts]
      rw [hpoll, h3]
      simp only [List.take_succ_cons]
      rw [ih ts j]
      simp [poll_stmts]

/-- Running the poll statements for a batch whose rows do not collide
with the existing table (distinct batch ids, no prior row at the batch
timestamp) appends exactly the batch's snapshot rows, in order. -/
theorem run_poll_games : ∀ (snaps : List UniverseSnapshot) (st : DbState) (ts : Int),
    (∀ r ∈ st.games, ∀ s ∈ snaps, ¬(r.universe_id = s.universe_id ∧ r.timestamp = ts)) →
    ((snaps.map fun s => s.universe_id).Nodup) →
    (run_stmts st (poll_stmts snaps ts)).games =
      st.games ++ snaps.map fun s => snapshot_row s ts := by
  intro snaps
  induction snaps with
  | nil =>
    intro st ts _ _
    simp [poll_stmts, run_stmts]
  | cons s rest ih =>
    intro st ts hclean hnodup
    have hpoll : poll_stmts (s :: rest) ts =
        DbStmt.upsertMeta s ts :: DbStmt.deleteSnap s.universe_id ts ::
          DbStmt.insertSnap (snapshot_row s ts) :: poll_stmts rest ts := by
      simp [poll_stmts]
    rw [hpoll, run_stmts]
    simp only [List.foldl_cons]
    rw [← run_stmts]
    have hfilter : st.games.filter
        (fun r => !(r.universe_id == s.universe_id && r.timestamp == ts)) = st.games := by
      apply List.filter_eq_self.mpr
      intro r hr
      have hcl := hclean r hr s (List.mem_cons_self s rest)
      cases hb : (r.universe_id == s.universe_id && r.timestamp == ts) with
      | false => simp [hb]
      | true =>
        exfalso
        have hb' := Bool.and_eq_true_iff.mp hb
        exact hcl ⟨beq_iff_eq.mp hb'.1, beq_iff_eq.mp hb'.2⟩
    have hst3 : (applyStmt (applyStmt (applyStmt st (.upsertMeta s ts))
        (.deleteSnap s.universe_id ts)) (.insertSnap (snapshot_row s ts))).games =
        st.games ++ [snapshot_row s ts] := by
      simp [applyStmt, hfilter]
      intro a ha
      have := hclean a ha s (List.mem_cons_self s rest)
      tauto
    rw [List.map_cons, ← List.singleton_append, ← List.append_assoc]
    rw [ih _ ts ?_ ?_]
    · rw [hst3]
    · intro r hr s' hs'
      rw [hst3] at hr
      rcases List.mem_append.mp hr with hr | hr
      · exact hclean r hr s' (List.mem_cons_of_mem s hs')
      · have hrow : r = snapshot_row s ts := List.mem_singleton.mp hr
        rintro ⟨hid, -⟩
        rw [hrow] at hid
        have hid' : s.universe_id = s'.universe_id := hid
        rw [List.map_cons, List.nodup_cons] at hnodup
        exact hnodup.1 (hid' ▸ List.mem_map.mpr ⟨s', hs', rfl⟩)
    · rw [List.map_cons, List.nodup_cons] at hnodup
      exact hnodup.2

/-- C3 amended: the batch is persisted statement by statement (DuckDB
autocommit, no transaction is opened), so a failure between candidates
leaves exactly the snapshot rows of the candidates processed so far —
the rows of a prefix of the batch, which for `0 < j < batch size` is a
strict nonempty partial subset rather than all-or-nothing. -/
theorem poll_batch_prefix_commit (snaps : List UniverseSnapshot) (ts : Int) (j : Nat)
    (hnodup : (snaps.map fun s => s.universe_id).Nodup) :
    (crash_state dbEmpty (poll_stmts snaps ts) (3 * j)).games =
      (snaps.take j).map fun s => snapshot_row s ts := by
  rw [crash_state, poll_stmts_take]
  rw [run_poll_games (snaps.take j) dbEmpty ts ?_ ?_]
  · simp [dbEmpty]
  · intro r hr
    simp [dbEmpty] at hr
  · have hmt : (snaps.take j).map (fun s => s.universe_id) =
        (snaps.map fun s => s.universe_id).take j := List.map_take _ _ _
    rw [hmt]
    exact hnodup.sublist (List.take_sublist _ _)

/-- C3 amended witness: stopping the two-candidate batch after the first
candidate leaves exactly the first snapshot row. -/
theorem poll_batch_prefix_commit_witness :
    (crash_state dbEmpty (poll_stmts [pollSnapA, pollSnapB] 0) (3 * 1)).games =
      ([pollSnapA, pollSnapB].take 1).map fun s => snapshot_row s 0 :=
  poll_batch_prefix_commit [pollSnapA, pollSnapB] 0 1 (by decide)

end EarlyShift
